import Mathlib

/-!
Verification development for the `servidor-computadores` repository
(`src/server.js`).  The source file concatenates two express server
variants over the same remote `computadores` table:

* variant 1 ("hosted storage"): image attachments live in Supabase
  Storage (`uploadImageToSupabase`);
* variant 2 ("hybrid"): new images are written to a local `uploads`
  directory (`saveImageLocally`) while previously stored hosted images
  are passed through by reference.

The definitions below are a shallow embedding of the handlers and helper
functions of both variants.  External effects (the object-storage upload
outcome, public-URL derivation, the local filesystem, base64 decoding
byte counts, and the clock) are abstracted into an `Env` record; the
remote table is modelled by a `Db` value together with the constraints
declared by the repository's own `CREATE TABLE computadores` SQL
(UNIQUE equipo_id, CHECK estado, CHECK windows_update, SERIAL id,
timestamp defaults).
-/

namespace Servidor

/-- JS truthiness of an optional string value: `undefined`/`null`/`""` are
falsy, every other string is truthy. -/
def truthy : Option String → Bool
  | none => false
  | some s => decide (s ≠ "")

/-- JS truthiness of an optional numeric column: `undefined`/`null`/`0` are
falsy. -/
def truthyNum : Option ℚ → Bool
  | none => false
  | some q => decide (q ≠ 0)

/-- JS `a || b` for an optional string: a falsy (absent or empty) left
operand falls back to the default. -/
def jsOr (o : Option String) (d : String) : String :=
  match o with
  | some s => if s = "" then d else s
  | none => d

/-- JS template-string interpolation of a possibly `undefined` value:
`undefined` prints as the string `"undefined"`. -/
def jsStr : Option String → String
  | some s => s
  | none => "undefined"

/-- JS `String.prototype.trim()`: strips leading and trailing whitespace
(modelled for the ASCII whitespace characters). -/
def jsTrim (s : String) : String :=
  String.mk (((s.toList.dropWhile Char.isWhitespace).reverse.dropWhile
    Char.isWhitespace).reverse)

/-- Drop an expected literal character sequence from the front of a
character list, returning the remainder (or `none` when the literal does
not match). -/
def stripLit : List Char → List Char → Option (List Char)
  | [], cs => some cs
  | _ :: _, [] => none
  | p :: ps, c :: cs => if c = p then stripLit ps cs else none

/-- Characters that a JavaScript regexp `.` (without the `s` flag) does not
match. -/
def isJsLineTerminator (c : Char) : Bool :=
  c = '\n' ∨ c = '\r' ∨ c = '\u2028' ∨ c = '\u2029'

/-- Model of the regexp match
`base64Data.match(/^data:image\/([a-zA-Z]*);base64,(.*)$/)` used by both
`uploadImageToSupabase` and `saveImageLocally`: on success it returns the
captured image subtype and base64 payload. -/
def matchDataUriImage (s : String) : Option (String × String) :=
  match stripLit "data:image/".toList s.toList with
  | none => none
  | some rest =>
    let sub := rest.takeWhile Char.isAlpha
    match stripLit ";base64,".toList (rest.dropWhile Char.isAlpha) with
    | none => none
    | some payload =>
      if payload.any isJsLineTerminator then none
      else some (String.mk sub, String.mk payload)

/-- Boolean test for `pat` occurring as a contiguous run inside `hay`
(character lists). -/
def hasSub (pat : List Char) : List Char → Bool
  | [] => (stripLit pat []).isSome
  | c :: cs => (stripLit pat (c :: cs)).isSome || hasSub pat cs

/-- JS `hay.includes(pat)` on strings (case-sensitive). -/
def strContains (hay pat : String) : Bool :=
  hasSub pat.toList hay.toList

/-- JS `hay.startsWith(pat)` on strings. -/
def strStartsWith (hay pat : String) : Bool :=
  (stripLit pat.toList hay.toList).isSome

/-- Case-insensitive substring test, modelling a PostgREST
`ilike('%pat%')` filter (`%`/`_` wildcards inside the parameter itself are
outside the modelled scope). -/
def ciContains (hay pat : String) : Bool :=
  hasSub pat.toLower.toList hay.toLower.toList

/-- One element of the `imagenes` array of a request body. -/
structure Imagen where
  title : Option String := none
  base64 : Option String := none
  filename : Option String := none
  url : Option String := none
  size : Option Nat := none
  fecha_subida : Option String := none
deriving Repr, DecidableEq

/-- One stored attachment entry of a record's `imagenes` JSON array.
`url := none` models a JS object whose `url` key was `undefined` and hence
dropped by JSON serialization. -/
structure Attachment where
  title : String
  filename : String
  url : Option String := none
  size : Option Nat := none
  fecha_subida : String
deriving Repr, DecidableEq

/-- External effects of a request: the outcome of an object-storage
upload, Supabase public-URL derivation, local-file existence (keyed by the
path relative to the uploads directory), the byte length of a decoded
base64 payload, the request clock (`Date.now()` / `toISOString`), the
database server clock used for column defaults, and the locale date
rendering used by the statistics handler. -/
structure Env where
  uploadOk : Bool
  publicUrl : String → String
  fileExists : String → Bool
  decodeLen : String → Nat
  now : Nat
  nowISO : String
  dbNow : Nat
  dbNowISO : String
  toDateString : Nat → String
  todayString : String

/-- Result of a successful `uploadImageToSupabase` call. -/
structure UploadResult where
  filename : String
  url : String
deriving Repr, DecidableEq

/-- Model of `uploadImageToSupabase(base64Data, equipoId, imageIndex)`
(variant 1): rejects falsy or comma-free input, matches the data-URI
regexp (a failed match throws, is caught, and yields `null`), builds the
storage key `equipoId/now-imageIndex.type`, and returns `null` when the
storage upload itself errors. -/
def uploadImageToSupabase (env : Env) (base64Data : Option String)
    (equipoId : String) (imageIndex : Nat) : Option UploadResult :=
  match base64Data with
  | none => none
  | some s =>
    if s = "" ∨ s.toList.contains ',' = false then none
    else
      match matchDataUriImage s with
      | none => none
      | some (imageType, _imageData) =>
        let fileName := equipoId ++ "/" ++ toString env.now ++ "-"
          ++ toString imageIndex ++ "." ++ imageType
        if env.uploadOk then
          some { filename := fileName, url := env.publicUrl fileName }
        else none

/-- Result of a successful `saveImageLocally` call. -/
structure LocalSaveResult where
  filename : String
  url : String
  size : Nat
deriving Repr, DecidableEq

/-- Model of `equipoId.replace(/[^a-zA-Z0-9]/g, '')` in `saveImageLocally`. -/
def safeEquipoId (s : String) : String :=
  String.mk (s.toList.filter fun c => c.isAlpha || c.isDigit)

/-- Model of `saveImageLocally(base64Data, equipoId, imageIndex)`
(variant 2 / hybrid): same input validation as the hosted upload, then a
write of `safeEquipoId/now-imageIndex.type` under the uploads directory
(the `fs.writeFileSync` call itself is assumed not to throw); the returned
`filename` is relative to the uploads directory. -/
def saveImageLocally (env : Env) (base64Data : Option String)
    (equipoId : String) (imageIndex : Nat) : Option LocalSaveResult :=
  match base64Data with
  | none => none
  | some s =>
    if s = "" ∨ s.toList.contains ',' = false then none
    else
      match matchDataUriImage s with
      | none => none
      | some (imageType, imageData) =>
        let fileName := toString env.now ++ "-" ++ toString imageIndex
          ++ "." ++ imageType
        let relativeFilePath := safeEquipoId equipoId ++ "/" ++ fileName
        some { filename := relativeFilePath,
               url := "/uploads/" ++ relativeFilePath,
               size := env.decodeLen imageData }

/-- One row of the remote `computadores` table, with the column types of
the repository's `CREATE TABLE` statement (timestamps are abstract: the
`TIMESTAMP` column `fecha_revision` is an epoch value ordered as a `Nat`,
`fecha_actualizacion` is stored as the ISO string the handlers write). -/
structure Record where
  id : Nat
  equipo_id : String
  serial_number : String
  placa_ml : Option String := none
  latitud : Option ℚ := none
  longitud : Option ℚ := none
  direccion_automatica : Option String := none
  ubicacion_manual : Option String := none
  responsable : String
  cargo : String
  estado : String
  windows_update : String
  imagenes : List Attachment := []
  observaciones : Option String := none
  problemas_detectados : Option String := none
  fecha_revision : Nat
  fecha_actualizacion : String
  revisor : Option String := none
deriving Repr, DecidableEq

/-- State of the remote table: its rows and the SERIAL sequence value. -/
structure Db where
  rows : List Record
  nextId : Nat
deriving Repr, DecidableEq

/-- Error object returned by a failed supabase call. -/
structure SupaError where
  code : Option String
  message : String
deriving Repr, DecidableEq

/-- `estado IN ('operativo', 'mantenimiento', 'dañado')` CHECK constraint. -/
def estadoValid (s : String) : Bool :=
  s = "operativo" ∨ s = "mantenimiento" ∨ s = "dañado"

/-- `windows_update IN ('si', 'no')` CHECK constraint. -/
def wuValid (s : String) : Bool :=
  s = "si" ∨ s = "no"

/-- Both CHECK constraints of one row. -/
def rowValid (r : Record) : Bool :=
  estadoValid r.estado && wuValid r.windows_update

/-- The UNIQUE(equipo_id) constraint over a row list. -/
def equipoIdsNodup : List Record → Bool
  | [] => true
  | r :: rs => !(rs.any fun q => q.equipo_id = r.equipo_id) && equipoIdsNodup rs

/-- A well-formed (reachable) table state: every row satisfies the CHECK
constraints and equipment identifiers are unique. -/
def dbWf (db : Db) : Bool :=
  db.rows.all rowValid && equipoIdsNodup db.rows

/-- The values a `POST /api/computadores` handler passes to `.insert(...)`
(after its own validation has passed). -/
structure NewRow where
  equipo_id : String
  serial_number : String
  placa_ml : Option String
  latitud : Option ℚ
  longitud : Option ℚ
  direccion_automatica : Option String
  ubicacion_manual : Option String
  responsable : String
  cargo : String
  estado : String
  windows_update : String
  imagenes : List Attachment
  observaciones : Option String
  problemas_detectados : Option String
  revisor : Option String
deriving Repr, DecidableEq

/-- Model of `.insert([v]).select().single()` against the `computadores`
schema: the CHECK constraints are verified first, then the UNIQUE
constraint on `equipo_id`; on success the row receives the next SERIAL id
and the database-clock defaults for `fecha_revision` and
`fecha_actualizacion`. -/
def dbInsert (env : Env) (db : Db) (v : NewRow) : Except SupaError (Db × Record) :=
  if ¬ estadoValid v.estado ∨ ¬ wuValid v.windows_update then
    .error { code := some "23514", message := "check constraint violated" }
  else if db.rows.any fun q => q.equipo_id = v.equipo_id then
    .error { code := some "23505", message := "duplicate key value violates unique constraint" }
  else
    let r : Record :=
      { id := db.nextId, equipo_id := v.equipo_id, serial_number := v.serial_number,
        placa_ml := v.placa_ml, latitud := v.latitud, longitud := v.longitud,
        direccion_automatica := v.direccion_automatica,
        ubicacion_manual := v.ubicacion_manual, responsable := v.responsable,
        cargo := v.cargo, estado := v.estado, windows_update := v.windows_update,
        imagenes := v.imagenes, observaciones := v.observaciones,
        problemas_detectados := v.problemas_detectados,
        fecha_revision := env.dbNow, fecha_actualizacion := env.dbNowISO,
        revisor := v.revisor }
    .ok ({ rows := db.rows ++ [r], nextId := db.nextId + 1 }, r)

/-- Model of `.update(payload).eq('id', id).select()` against the
`computadores` schema: the payload is applied to every matching row; the
CHECK constraints and the UNIQUE(equipo_id) constraint are enforced on the
resulting table, and the updated rows are returned. -/
def dbUpdate (db : Db) (id : Nat) (f : Record → Record) :
    Except SupaError (Db × List Record) :=
  let newRows := db.rows.map fun r => if r.id = id then f r else r
  if ¬ newRows.all rowValid then
    .error { code := some "23514", message := "check constraint violated" }
  else if ¬ equipoIdsNodup newRows then
    .error { code := some "23505", message := "duplicate key value violates unique constraint" }
  else
    .ok ({ db with rows := newRows }, (db.rows.filter fun r => r.id = id).map f)

/-- The `imagenes` field of a JSON request body, distinguishing an absent
field and a non-array value (both fail the handlers'
`imagenes && Array.isArray(imagenes)` test) from an actual array. -/
inductive ImagenesField
  | missing
  | notArray
  | arr (l : List Imagen)
deriving Repr, DecidableEq

/-- A `POST`/`PUT /api/computadores` request body.  `none` models a JS
`undefined` field (either absent from the JSON or destructured away);
explicit JSON `null` values for scalar fields are not modelled. -/
structure Body where
  equipo_id : Option String := none
  serial_number : Option String := none
  placa_ml : Option String := none
  latitud : Option ℚ := none
  longitud : Option ℚ := none
  direccion_automatica : Option String := none
  ubicacion_manual : Option String := none
  responsable : Option String := none
  cargo : Option String := none
  estado : Option String := none
  windows_update : Option String := none
  observaciones : Option String := none
  problemas_detectados : Option String := none
  revisor : Option String := none
  imagenes : ImagenesField := .missing
deriving Repr, DecidableEq

/-- The six-field requirement check of both `POST /api/computadores`
handlers: `!equipo_id || !serial_number || !responsable || !cargo ||
!estado || !windows_update`. -/
def validBody (b : Body) : Bool :=
  truthy b.equipo_id && truthy b.serial_number && truthy b.responsable
    && truthy b.cargo && truthy b.estado && truthy b.windows_update

/-- The HTTP response envelope assembled by the handlers; only the fields
a handler sets are `some`. -/
structure Response where
  status : Nat
  requiredList : Option (List String) := none
  errorMsg : Option String := none
  errorCode : Option String := none
  imagenes_guardadas : Option Nat := none
  createdId : Option Nat := none
  records : Option (List Record) := none
deriving Repr, DecidableEq

/-- Model of `handleSupabaseError` (identical in both variants): vendor
codes 23505/23514/23502 map to 400 responses with fixed messages, anything
else degrades to a generic 500. -/
def handleSupabaseError (e : SupaError) : Response :=
  if e.code = some "23505" then
    { status := 400, errorMsg := some "El ID del equipo ya existe",
      errorCode := some (jsOr e.code "SUPABASE_ERROR") }
  else if e.code = some "23514" then
    { status := 400, errorMsg := some "Valor no válido",
      errorCode := some (jsOr e.code "SUPABASE_ERROR") }
  else if e.code = some "23502" then
    { status := 400, errorMsg := some "Campo requerido faltante",
      errorCode := some (jsOr e.code "SUPABASE_ERROR") }
  else
    { status := 500, errorMsg := some "Error interno del servidor",
      errorCode := some (jsOr e.code "SUPABASE_ERROR") }

/-- The `for (let i = 0; ...)` image loops of the four write handlers,
parameterised by the per-item step (which receives the 1-based index
`i + 1`); a `none` step result pushes nothing and the loop continues. -/
def imageLoop (step : Imagen → Nat → Option Attachment) :
    List Imagen → Nat → List Attachment
  | [], _ => []
  | im :: rest, i =>
    (match step im (i + 1) with
     | some a => [a]
     | none => []) ++ imageLoop step rest (i + 1)

/-- One iteration of the create-image loop of variant 1: items with a
truthy `base64` field are uploaded to hosted storage under the record's
`equipo_id`; a `null` upload result is skipped. -/
def createItemV1 (env : Env) (equipoId : String) (imagen : Imagen)
    (imageIndex : Nat) : Option Attachment :=
  if truthy imagen.base64 then
    match uploadImageToSupabase env imagen.base64 equipoId imageIndex with
    | some r =>
      some { title := jsOr imagen.title ("Imagen " ++ toString imageIndex),
             filename := r.filename, url := some r.url,
             fecha_subida := env.nowISO }
    | none => none
  else none

/-- One iteration of the create-image loop of variant 2 (hybrid): items
with a truthy `base64` field are written to the local uploads directory. -/
def createItemHybrid (env : Env) (equipoId : String) (imagen : Imagen)
    (imageIndex : Nat) : Option Attachment :=
  if truthy imagen.base64 then
    match saveImageLocally env imagen.base64 equipoId imageIndex with
    | some r =>
      some { title := jsOr imagen.title ("Imagen " ++ toString imageIndex),
             filename := r.filename, url := some r.url, size := some r.size,
             fecha_subida := env.nowISO }
    | none => none
  else none

/-- The `.insert` payload built by both create handlers. -/
def newRowOf (body : Body) (imgs : List Attachment) : NewRow :=
  { equipo_id := body.equipo_id.getD "", serial_number := body.serial_number.getD "",
    placa_ml := body.placa_ml, latitud := body.latitud, longitud := body.longitud,
    direccion_automatica := body.direccion_automatica,
    ubicacion_manual := body.ubicacion_manual,
    responsable := body.responsable.getD "", cargo := body.cargo.getD "",
    estado := body.estado.getD "", windows_update := body.windows_update.getD "",
    imagenes := imgs, observaciones := body.observaciones,
    problemas_detectados := body.problemas_detectados, revisor := body.revisor }

/-- Model of `POST /api/computadores` (variant 1): six-field validation,
then the image loop, then the insert.  Besides the response it returns the
resulting table state and the list of attachments actually persisted to
storage (a side effect that survives even a failed insert). -/
def postComputadoresV1 (env : Env) (db : Db) (body : Body) :
    Response × Db × List Attachment :=
  if ¬ validBody body then
    ({ status := 400, errorMsg := some "Campos requeridos faltantes",
       requiredList := some ["equipo_id", "serial_number", "responsable",
                             "cargo", "estado", "windows_update"] }, db, [])
  else
    let imagenesSubidas :=
      match body.imagenes with
      | .arr l => imageLoop (createItemV1 env (body.equipo_id.getD "")) l 0
      | _ => []
    match dbInsert env db (newRowOf body imagenesSubidas) with
    | .error e => (handleSupabaseError e, db, imagenesSubidas)
    | .ok (db2, r) =>
      ({ status := 201, imagenes_guardadas := some imagenesSubidas.length,
         createdId := some r.id }, db2, imagenesSubidas)

/-- Model of `POST /api/computadores` (variant 2 / hybrid): identical to
variant 1 except that new images are saved locally. -/
def postComputadoresHybrid (env : Env) (db : Db) (body : Body) :
    Response × Db × List Attachment :=
  if ¬ validBody body then
    ({ status := 400, errorMsg := some "Campos requeridos faltantes",
       requiredList := some ["equipo_id", "serial_number", "responsable",
                             "cargo", "estado", "windows_update"] }, db, [])
  else
    let imagenesGuardadas :=
      match body.imagenes with
      | .arr l => imageLoop (createItemHybrid env (body.equipo_id.getD "")) l 0
      | _ => []
    match dbInsert env db (newRowOf body imagenesGuardadas) with
    | .error e => (handleSupabaseError e, db, imagenesGuardadas)
    | .ok (db2, r) =>
      ({ status := 201, imagenes_guardadas := some imagenesGuardadas.length,
         createdId := some r.id }, db2, imagenesGuardadas)

/-- One iteration of the update-image loop of variant 1
(`PUT /api/computadores/:id`): a new inline image (truthy `base64`
starting with `data:image`) is uploaded under the key prefix
`equipo_id + "-update"`; otherwise an item with a truthy `filename` is
passed through unchanged; everything else is dropped. -/
def updateItemV1 (env : Env) (equipoId : Option String) (imagen : Imagen)
    (imageIndex : Nat) : Option Attachment :=
  if truthy imagen.base64 ∧ strStartsWith (imagen.base64.getD "") "data:image" then
    match uploadImageToSupabase env imagen.base64 (jsStr equipoId ++ "-update")
        imageIndex with
    | some r =>
      some { title := jsOr imagen.title ("Imagen " ++ toString imageIndex),
             filename := r.filename, url := some r.url,
             fecha_subida := env.nowISO }
    | none => none
  else if truthy imagen.filename then
    some { title := jsOr imagen.title ("Imagen " ++ toString imageIndex),
           filename := imagen.filename.getD "", url := imagen.url,
           fecha_subida := jsOr imagen.fecha_subida env.nowISO }
  else none

/-- One iteration of the update-image loop of variant 2 (hybrid): a new
inline image is saved locally under `equipo_id + "-update"`; an existing
reference starting with `http` (Supabase Storage URL) is kept as is with
the URL doubling as `filename` and `url`; any other existing reference is
kept only when the local file still exists; everything else is dropped. -/
def updateItemHybrid (env : Env) (equipoId : Option String) (imagen : Imagen)
    (imageIndex : Nat) : Option Attachment :=
  if truthy imagen.base64 ∧ strStartsWith (imagen.base64.getD "") "data:image" then
    match saveImageLocally env imagen.base64 (jsStr equipoId ++ "-update")
        imageIndex with
    | some r =>
      some { title := jsOr imagen.title ("Imagen " ++ toString imageIndex),
             filename := r.filename, url := some r.url, size := some r.size,
             fecha_subida := env.nowISO }
    | none => none
  else if truthy imagen.filename then
    if strStartsWith (imagen.filename.getD "") "http" then
      some { title := jsOr imagen.title ("Imagen " ++ toString imageIndex),
             filename := imagen.filename.getD "",
             url := some (imagen.filename.getD ""),
             size := some (imagen.size.getD 0),
             fecha_subida := jsOr imagen.fecha_subida env.nowISO }
    else if env.fileExists (imagen.filename.getD "") then
      some { title := jsOr imagen.title ("Imagen " ++ toString imageIndex),
             filename := imagen.filename.getD "", url := imagen.url,
             size := some (imagen.size.getD 0),
             fecha_subida := jsOr imagen.fecha_subida env.nowISO }
    else none
  else none

/-- The `imagenesFinales` array assembled by the variant-1 update handler. -/
def imagenesFinalesV1 (env : Env) (body : Body) : List Attachment :=
  match body.imagenes with
  | .arr l => imageLoop (updateItemV1 env body.equipo_id) l 0
  | _ => []

/-- The `imagenesFinales` array assembled by the hybrid update handler. -/
def imagenesFinalesHybrid (env : Env) (body : Body) : List Attachment :=
  match body.imagenes with
  | .arr l => imageLoop (updateItemHybrid env body.equipo_id) l 0
  | _ => []

/-- Overwrite a column with a body field when the field is present; a JS
`undefined` field is dropped by JSON serialization so the column keeps its
old value. -/
def updField {α : Type} (new old : Option α) : Option α :=
  match new with
  | some v => some v
  | none => old

/-- The `.update(...)` payload of both PUT handlers applied to one row:
every mutable column is taken from the body when present, `imagenes` and
`fecha_actualizacion` are always set; `id` and `fecha_revision` are not in
the payload and keep their old values. -/
def applyUpdate (body : Body) (imgs : List Attachment) (nowISO : String)
    (r : Record) : Record :=
  { r with
    equipo_id := body.equipo_id.getD r.equipo_id,
    serial_number := body.serial_number.getD r.serial_number,
    placa_ml := updField body.placa_ml r.placa_ml,
    latitud := updField body.latitud r.latitud,
    longitud := updField body.longitud r.longitud,
    direccion_automatica := updField body.direccion_automatica r.direccion_automatica,
    ubicacion_manual := updField body.ubicacion_manual r.ubicacion_manual,
    responsable := body.responsable.getD r.responsable,
    cargo := body.cargo.getD r.cargo,
    estado := body.estado.getD r.estado,
    windows_update := body.windows_update.getD r.windows_update,
    imagenes := imgs,
    observaciones := updField body.observaciones r.observaciones,
    problemas_detectados := updField body.problemas_detectados r.problemas_detectados,
    revisor := updField body.revisor r.revisor,
    fecha_actualizacion := nowISO }

/-- Model of `PUT /api/computadores/:id` (variant 1): processes the image
array, issues the update, and returns 404 when no row matched. -/
def putComputadoresV1 (env : Env) (db : Db) (id : Nat) (body : Body) :
    Response × Db :=
  let imgs := imagenesFinalesV1 env body
  match dbUpdate db id (applyUpdate body imgs env.nowISO) with
  | .error e => (handleSupabaseError e, db)
  | .ok (db2, matched) =>
    if matched.isEmpty then
      ({ status := 404, errorMsg := some "Registro no encontrado" }, db2)
    else
      ({ status := 200, imagenes_guardadas := some imgs.length }, db2)

/-- Model of `PUT /api/computadores/:id` (variant 2 / hybrid). -/
def putComputadoresHybrid (env : Env) (db : Db) (id : Nat) (body : Body) :
    Response × Db :=
  let imgs := imagenesFinalesHybrid env body
  match dbUpdate db id (applyUpdate body imgs env.nowISO) with
  | .error e => (handleSupabaseError e, db)
  | .ok (db2, matched) =>
    if matched.isEmpty then
      ({ status := 404, errorMsg := some "Registro no encontrado" }, db2)
    else
      ({ status := 200, imagenes_guardadas := some imgs.length }, db2)

/-- The query parameters accepted by `GET /api/computadores`. -/
structure ListParams where
  estado : Option String := none
  responsable : Option String := none
  equipo_id : Option String := none
  serial_number : Option String := none
  revisor : Option String := none
deriving Repr, DecidableEq

/-- The conjunction of the filters the list handler adds to the query: an
`eq` filter on `estado` and `ilike '%..%'` filters on the four text
columns, each added only when the parameter is truthy.  An `ilike` against
the nullable `revisor` column does not match a NULL value. -/
def listFilter (p : ListParams) (r : Record) : Bool :=
  (if truthy p.estado then r.estado = p.estado.getD "" else true)
    && (if truthy p.responsable then ciContains r.responsable (p.responsable.getD "") else true)
    && (if truthy p.equipo_id then ciContains r.equipo_id (p.equipo_id.getD "") else true)
    && (if truthy p.serial_number then ciContains r.serial_number (p.serial_number.getD "") else true)
    && (if truthy p.revisor then
          match r.revisor with
          | some s => ciContains s (p.revisor.getD "")
          | none => false
        else true)

/-- Insert a record into a list kept in descending `fecha_revision` order. -/
def insertDesc (r : Record) : List Record → List Record
  | [] => [r]
  | q :: qs =>
    if r.fecha_revision ≤ q.fecha_revision then q :: insertDesc r qs
    else r :: q :: qs

/-- Model of `.order('fecha_revision', { ascending: false })`: the rows
sorted by `fecha_revision` descending. -/
def sortByRevisionDesc : List Record → List Record
  | [] => []
  | r :: rs => insertDesc r (sortByRevisionDesc rs)

/-- Model of `GET /api/computadores` (variant 1): the remote query is the
conditional filter chain followed by the descending order, and the rows
are returned as the JSON body. -/
def getComputadoresV1 (db : Db) (p : ListParams) : Response :=
  { status := 200,
    records := some (sortByRevisionDesc (db.rows.filter (listFilter p))) }

/-- Per-image processing of the hybrid list handler: an image whose `url`
contains `supabase.co` is kept with the URL copied over `filename`; a
local reference (truthy `filename` not starting with `http`) is kept only
when the file still exists; anything else is kept unchanged. -/
def getImagenHybrid (env : Env) (imagen : Attachment) : Option Attachment :=
  if truthy imagen.url ∧ strContains (imagen.url.getD "") "supabase.co" then
    some { imagen with filename := imagen.url.getD "" }
  else if imagen.filename ≠ "" ∧ ¬ strStartsWith imagen.filename "http" then
    if env.fileExists imagen.filename then some imagen else none
  else some imagen

/-- Per-record processing of the hybrid list handler (the `imagenes`
column is a JSON array on every read, so the array branch always runs). -/
def getRecordHybrid (env : Env) (r : Record) : Record :=
  { r with imagenes := r.imagenes.filterMap (getImagenHybrid env) }

/-- Model of `GET /api/computadores` (variant 2 / hybrid): the same query
as variant 1 followed by the per-record image existence filter. -/
def getComputadoresHybrid (env : Env) (db : Db) (p : ListParams) : Response :=
  { status := 200,
    records := some ((sortByRevisionDesc (db.rows.filter (listFilter p))).map
      (getRecordHybrid env)) }

/-- Response of the `GET /uploads/:filename(*)` proxy route (variant 1). -/
inductive UploadsResp
  | redirect (url : String)
  | notFound
deriving Repr, DecidableEq

/-- Model of `GET /uploads/:filename(*)` (variant 1): the requested path
is treated as an object-storage key; `getPublicUrl` is `env.publicUrl`,
whose falsy (empty) result yields a 404, otherwise the response redirects
to the public URL. -/
def uploadsProxyV1 (env : Env) (filename : String) : UploadsResp :=
  if env.publicUrl filename = "" then .notFound
  else .redirect (env.publicUrl filename)

/-- The counters returned by `GET /api/estadisticas` (identical in both
variants); the Lean field `danados` models the JSON key `dañados`. -/
structure Stats where
  total : Nat
  operativos : Nat
  mantenimiento : Nat
  danados : Nat
  windows_si : Nat
  windows_no : Nat
  revisiones_hoy : Nat
  con_problemas : Nat
  con_ubicacion : Nat
  con_imagenes : Nat
  total_imagenes : Nat
  totalEquipos : Nat
  windowsActualizados : Nat
deriving Repr, DecidableEq

/-- Model of the `GET /api/estadisticas` handler as a function of the
fetched rows: `new Date(x).toDateString()` is `env.toDateString` and the
current date string is `env.todayString`; all other predicates are the
handler's own filters, including the JS truthiness of the numeric
`latitud`/`longitud` columns and the `.trim()` on `problemas_detectados`. -/
def estadisticas (env : Env) (computadores : List Record) : Stats :=
  { total := computadores.length,
    operativos := (computadores.filter fun c => c.estado = "operativo").length,
    mantenimiento := (computadores.filter fun c => c.estado = "mantenimiento").length,
    danados := (computadores.filter fun c => c.estado = "dañado").length,
    windows_si := (computadores.filter fun c => c.windows_update = "si").length,
    windows_no := (computadores.filter fun c => c.windows_update = "no").length,
    revisiones_hoy := (computadores.filter fun c =>
      env.toDateString c.fecha_revision = env.todayString).length,
    con_problemas := (computadores.filter fun c =>
      truthy c.problemas_detectados
        && jsTrim (c.problemas_detectados.getD "") ≠ "").length,
    con_ubicacion := (computadores.filter fun c =>
      truthyNum c.latitud && truthyNum c.longitud).length,
    con_imagenes := (computadores.filter fun c => c.imagenes.length > 0).length,
    total_imagenes := computadores.foldl (fun sum c => sum + c.imagenes.length) 0,
    totalEquipos := computadores.length,
    windowsActualizados := (computadores.filter fun c => c.windows_update = "si").length }

/-- The count of records with "both latitude and longitude present",
following the words of the claim (presence of a nullable column meaning a
non-null value); to be compared with the handler's truthiness test. -/
def specConUbicacion (rows : List Record) : Nat :=
  (rows.filter fun c => c.latitud.isSome && c.longitud.isSome).length

/-- The count of records with "non-empty detected-problems text",
following the words of the claim; to be compared with the handler's
trimmed test. -/
def specConProblemas (rows : List Record) : Nat :=
  (rows.filter fun c =>
    match c.problemas_detectados with
    | some s => s ≠ ""
    | none => false).length

/-! Concrete data used by the witness and counterexample theorems. -/

/-- A concrete environment: uploads succeed, the public URL is derived by
prefixing, exactly the local file `ex/1.png` exists, and the request clock
reads 5 ms. -/
def envW : Env :=
  { uploadOk := true, publicUrl := fun s => "https://sb/" ++ s,
    fileExists := fun s => s = "ex/1.png", decodeLen := fun _ => 4,
    now := 5, nowISO := "2026-01-01T00:00:00.000Z", dbNow := 9,
    dbNowISO := "2026-01-01T00:00:01.000Z",
    toDateString := fun _ => "Thu Jan 01 2026", todayString := "Sat Oct 10 2026" }

/-- An attachment item with a well-formed inline data-URI payload. -/
def imgGood : Imagen := { base64 := some "data:image/png;base64,AAAA" }

/-- An attachment item with a malformed inline payload (no base64 header). -/
def imgBad : Imagen := { base64 := some "data:image/bad,xx" }

/-- An attachment item carrying only an existing local reference. -/
def imgRef : Imagen := { title := some "vieja", filename := some "ex/1.png" }

/-- A stored attachment pointing at the existing local file. -/
def attOld : Attachment := { title := "old", filename := "ex/1.png", fecha_subida := "t" }

/-- An attachment item referencing a local file that does not exist. -/
def imgRefGone : Imagen := { filename := some "gone.png" }

/-- `envW` with a storage service from which no public URL can be derived. -/
def envWNoUrl : Env := { envW with publicUrl := fun _ => "" }

/-- A valid create/update body with all six required fields. -/
def bodyW : Body :=
  { equipo_id := some "PC1", serial_number := some "S1", responsable := some "Ana",
    cargo := some "Tech", estado := some "mantenimiento", windows_update := some "si" }

/-- `bodyW` with an image batch: one well-formed and one malformed item. -/
def bodyWImgs : Body := { bodyW with imagenes := .arr [imgGood, imgBad] }

/-- A body missing the required `equipo_id` field. -/
def bodyMissing : Body := { bodyW with equipo_id := none }

/-- A full update body (every mutable column present). -/
def bodyFull : Body :=
  { equipo_id := some "PC1", serial_number := some "S2", placa_ml := some "PL",
    latitud := some 4, longitud := some (-74), direccion_automatica := some "Calle 1",
    ubicacion_manual := some "Sede", responsable := some "Beto", cargo := some "Dev",
    estado := some "operativo", windows_update := some "no",
    observaciones := some "obs", problemas_detectados := some "ninguno",
    revisor := some "Caro", imagenes := .arr [imgRef] }

/-- A stored row with id 1 and one old attachment. -/
def recW : Record :=
  { id := 1, equipo_id := "PC1", serial_number := "S1", responsable := "Ana",
    cargo := "Tech", estado := "mantenimiento", windows_update := "si",
    imagenes := [attOld], fecha_revision := 3, fecha_actualizacion := "t0" }

/-- A second stored row with id 2 and a later review timestamp. -/
def recW2 : Record :=
  { id := 2, equipo_id := "PC2", serial_number := "S9", responsable := "Luz",
    cargo := "Ops", estado := "operativo", windows_update := "no",
    imagenes := [], fecha_revision := 7, fecha_actualizacion := "t1" }

/-- A one-row table state. -/
def dbW : Db := { rows := [recW], nextId := 2 }

/-- A two-row table state. -/
def dbW2 : Db := { rows := [recW, recW2], nextId := 3 }

/-- A record whose `latitud` is present but zero and whose
`problemas_detectados` text is non-empty but blank after trimming. -/
def recCex : Record :=
  { id := 1, equipo_id := "E0", serial_number := "S0", responsable := "R",
    cargo := "C", estado := "operativo", windows_update := "si",
    latitud := some 0, longitud := some 1, problemas_detectados := some " ",
    fecha_revision := 0, fecha_actualizacion := "" }

/-! General lemmas about the embedded helpers. -/

theorem stripLit_eq {p : List Char} : ∀ {cs rest : List Char},
    stripLit p cs = some rest → cs = p ++ rest := by
  induction p with
  | nil =>
    intro cs rest h
    simp [stripLit] at h
    simp [h]
  | cons a ps ih =>
    intro cs rest h
    cases cs with
    | nil => simp [stripLit] at h
    | cons c cs' =>
      by_cases hc : c = a
      · subst hc
        simp only [stripLit, if_pos rfl] at h
        simpa using congrArg (c :: ·) (ih h)
      · simp [stripLit, hc] at h

theorem matchDataUriImage_guards {s sub pay : String}
    (h : matchDataUriImage s = some (sub, pay)) :
    s ≠ "" ∧ ',' ∈ s.data := by
  unfold matchDataUriImage at h
  split at h
  · exact absurd h (by simp)
  · rename_i rest h1
    split at h
    · exact absurd h (by simp)
    · rename_i payload h2
      have hs : s.toList = "data:image/".toList ++ rest := stripLit_eq h1
      have hr : rest.dropWhile Char.isAlpha = ";base64,".toList ++ payload :=
        stripLit_eq h2
      refine ⟨?_, ?_⟩
      · intro he
        rw [he] at hs
        have hnil : ([] : List Char) = "data:image/".toList ++ rest := hs
        have := congrArg List.length hnil
        simp [List.length_append] at this
      · have h3 : ',' ∈ rest.dropWhile Char.isAlpha := by
          rw [hr]
          exact List.mem_append.mpr (Or.inl (by decide))
        have h4 : ',' ∈ rest := by
          rw [← List.takeWhile_append_dropWhile Char.isAlpha rest]
          exact List.mem_append.mpr (Or.inr h3)
        have hmem : ',' ∈ s.toList := by
          rw [hs]
          exact List.mem_append.mpr (Or.inr h4)
        exact hmem

theorem uploadImageToSupabase_matched (env : Env) (equipoId : String)
    (imageIndex : Nat) {s sub pay : String}
    (hm : matchDataUriImage s = some (sub, pay)) (hup : env.uploadOk = true) :
    uploadImageToSupabase env (some s) equipoId imageIndex =
      some { filename := equipoId ++ "/" ++ toString env.now ++ "-"
               ++ toString imageIndex ++ "." ++ sub,
             url := env.publicUrl (equipoId ++ "/" ++ toString env.now ++ "-"
               ++ toString imageIndex ++ "." ++ sub) } := by
  obtain ⟨hne, hc⟩ := matchDataUriImage_guards hm
  simp [uploadImageToSupabase, hne, hc, hm, hup]

theorem uploadImageToSupabase_unmatched (env : Env) (equipoId : String)
    (imageIndex : Nat) {s : String} (hm : matchDataUriImage s = none) :
    uploadImageToSupabase env (some s) equipoId imageIndex = none := by
  simp [uploadImageToSupabase, hm]

theorem saveImageLocally_matched (env : Env) (equipoId : String)
    (imageIndex : Nat) {s sub pay : String}
    (hm : matchDataUriImage s = some (sub, pay)) :
    saveImageLocally env (some s) equipoId imageIndex =
      some { filename := safeEquipoId equipoId ++ "/"
               ++ (toString env.now ++ "-" ++ toString imageIndex ++ "." ++ sub),
             url := "/uploads/" ++ (safeEquipoId equipoId ++ "/"
               ++ (toString env.now ++ "-" ++ toString imageIndex ++ "." ++ sub)),
             size := env.decodeLen pay } := by
  obtain ⟨hne, hc⟩ := matchDataUriImage_guards hm
  simp [saveImageLocally, hne, hc, hm]

theorem saveImageLocally_unmatched (env : Env) (equipoId : String)
    (imageIndex : Nat) {s : String} (hm : matchDataUriImage s = none) :
    saveImageLocally env (some s) equipoId imageIndex = none := by
  simp [saveImageLocally, hm]

theorem imageLoop_cons (step : Imagen → Nat → Option Attachment)
    (x : Imagen) (l : List Imagen) (i : Nat) :
    imageLoop step (x :: l) i =
      (step x (i + 1)).toList ++ imageLoop step l (i + 1) := by
  cases h : step x (i + 1) <;> simp [imageLoop, h]

theorem imageLoop_append (step : Imagen → Nat → Option Attachment)
    (xs ys : List Imagen) (i : Nat) :
    imageLoop step (xs ++ ys) i =
      imageLoop step xs i ++ imageLoop step ys (i + xs.length) := by
  induction xs generalizing i with
  | nil => simp [imageLoop]
  | cons x xs ih =>
    have harith : i + 1 + xs.length = i + (xs.length + 1) := by omega
    simp only [List.cons_append, imageLoop_cons, ih (i + 1), List.length_cons, harith]
    simp [List.append_assoc]

theorem handleSupabaseError_status (e : SupaError) :
    (handleSupabaseError e).status = 400 ∨ (handleSupabaseError e).status = 500 := by
  unfold handleSupabaseError
  split_ifs <;> simp

theorem handleSupabaseError_status_ne_201 (e : SupaError) :
    (handleSupabaseError e).status ≠ 201 := by
  rcases handleSupabaseError_status e with h | h <;> simp [h]

theorem handleSupabaseError_status_ne_200 (e : SupaError) :
    (handleSupabaseError e).status ≠ 200 := by
  rcases handleSupabaseError_status e with h | h <;> simp [h]

/-- C1: on create, every inline item whose payload is a well-formed
data-URI image yields exactly one stored attachment whose reference ends
in `.<subtype>` (given that the storage upload succeeds), a malformed item
yields no attachment, the rest of the batch is processed independently of
the item's position, and a successful create response carries only the
saved-image count — no per-item error information. -/
theorem create_inline_attachment_per_item (env : Env) (equipoId : String)
    (imagen : Imagen) (pre suf : List Imagen) (i : Nat) :
    (imageLoop (createItemV1 env equipoId) (pre ++ imagen :: suf) i =
       imageLoop (createItemV1 env equipoId) pre i
         ++ (createItemV1 env equipoId imagen (i + pre.length + 1)).toList
         ++ imageLoop (createItemV1 env equipoId) suf (i + pre.length + 1))
    ∧ (∀ s sub pay, imagen.base64 = some s →
        matchDataUriImage s = some (sub, pay) → env.uploadOk = true →
        ∃ a rest, createItemV1 env equipoId imagen (i + pre.length + 1) = some a
          ∧ a.filename = rest ++ "." ++ sub)
    ∧ (∀ s, imagen.base64 = some s → matchDataUriImage s = none →
        createItemV1 env equipoId imagen (i + pre.length + 1) = none)
    ∧ (∀ db body resp db2 saved,
        postComputadoresV1 env db body = (resp, db2, saved) → resp.status = 201 →
        resp.errorMsg = none ∧ resp.errorCode = none ∧ resp.requiredList = none
          ∧ resp.imagenes_guardadas = some saved.length) := by
  refine ⟨?_, ?_, ?_, ?_⟩
  · rw [imageLoop_append, imageLoop_cons]
    simp [List.append_assoc]
  · intro s sub pay hb hm hup
    obtain ⟨hne, -⟩ := matchDataUriImage_guards hm
    have hu := uploadImageToSupabase_matched env equipoId (i + pre.length + 1)
      (s := s) hm hup
    simp only [createItemV1, hb, truthy, hne, ne_eq, not_false_iff,
      decide_eq_true_eq, if_true, hu]
    exact ⟨_, _, rfl, rfl⟩
  · intro s hb hm
    by_cases hne : s = ""
    · simp [createItemV1, hb, truthy, hne]
    · have hu := uploadImageToSupabase_unmatched env equipoId (i + pre.length + 1)
        (s := s) hm
      simp [createItemV1, hb, truthy, hne, hu]
  · intro db body resp db2 saved hpost hstatus
    unfold postComputadoresV1 at hpost
    split at hpost
    · cases hpost
      simp at hstatus
    · split at hpost <;> dsimp only at hpost <;> split at hpost <;> cases hpost
      all_goals
        first
          | exact absurd hstatus (handleSupabaseError_status_ne_201 _)
          | simp

/-- Witness for C1: the concrete well-formed item yields one attachment
whose reference ends in `.png`, and the concrete malformed item yields
none. -/
theorem create_inline_attachment_per_item_witness :
    (∃ a rest, createItemV1 envW "PC1" imgGood 1 = some a
       ∧ a.filename = rest ++ "." ++ "png")
    ∧ createItemV1 envW "PC1" imgBad 1 = none :=
  ⟨(create_inline_attachment_per_item envW "PC1" imgGood [] [] 0).2.1
      "data:image/png;base64,AAAA" "png" "AAAA" rfl (by decide) rfl,
   (create_inline_attachment_per_item envW "PC1" imgBad [] [] 0).2.2.1
      "data:image/bad,xx" rfl (by decide)⟩

/-- C2: a create request missing any of the six required fields receives a
400 response listing exactly the six required field names, and neither a
row insert nor any attachment persistence happens — in both server
variants. -/
theorem create_missing_required_fields_400 (env : Env) (db : Db) (body : Body)
    (h : body.equipo_id = none ∨ body.serial_number = none
      ∨ body.responsable = none ∨ body.cargo = none
      ∨ body.estado = none ∨ body.windows_update = none) :
    ((postComputadoresV1 env db body).1.status = 400
      ∧ (postComputadoresV1 env db body).1.requiredList =
          some ["equipo_id", "serial_number", "responsable", "cargo",
                "estado", "windows_update"]
      ∧ (postComputadoresV1 env db body).2.1 = db
      ∧ (postComputadoresV1 env db body).2.2 = [])
    ∧ ((postComputadoresHybrid env db body).1.status = 400
      ∧ (postComputadoresHybrid env db body).1.requiredList =
          some ["equipo_id", "serial_number", "responsable", "cargo",
                "estado", "windows_update"]
      ∧ (postComputadoresHybrid env db body).2.1 = db
      ∧ (postComputadoresHybrid env db body).2.2 = []) := by
  have hv : validBody body = false := by
    rcases h with h | h | h | h | h | h <;> simp [validBody, truthy, h]
  simp [postComputadoresV1, postComputadoresHybrid, hv]

/-- Witness for C2 at a concrete body missing `equipo_id`. -/
theorem create_missing_required_fields_400_witness :
    (postComputadoresV1 envW { rows := [], nextId := 1 } bodyMissing).1.status = 400
    ∧ (postComputadoresV1 envW { rows := [], nextId := 1 } bodyMissing).1.requiredList =
        some ["equipo_id", "serial_number", "responsable", "cargo",
              "estado", "windows_update"] := by
  obtain ⟨⟨ha, hb, -, -⟩, -⟩ :=
    create_missing_required_fields_400 envW { rows := [], nextId := 1 }
      bodyMissing (Or.inl rfl)
  exact ⟨ha, hb⟩

theorem postComputadoresV1_valid (env : Env) (db : Db) (body : Body)
    (hv : validBody body = true) :
    postComputadoresV1 env db body =
      (let imgs :=
        match body.imagenes with
        | .arr l => imageLoop (createItemV1 env (body.equipo_id.getD "")) l 0
        | _ => []
      match dbInsert env db (newRowOf body imgs) with
      | .error e => (handleSupabaseError e, db, imgs)
      | .ok (db2, r) =>
        ({ status := 201, imagenes_guardadas := some imgs.length,
           createdId := some r.id }, db2, imgs)) := by
  unfold postComputadoresV1
  rw [if_neg (by simp [hv])]

theorem postComputadoresV1_created (env : Env) (db : Db) (body : Body)
    (h : (postComputadoresV1 env db body).1.status = 201) :
    ∃ r, (postComputadoresV1 env db body).2.1.rows = db.rows ++ [r]
      ∧ r.equipo_id = body.equipo_id.getD "" := by
  rcases hres : postComputadoresV1 env db body with ⟨resp, db1, saved⟩
  rw [hres] at h
  simp only at h ⊢
  unfold postComputadoresV1 at hres
  split at hres
  · cases hres
    simp at h
  · split at hres <;> dsimp only at hres <;> split at hres <;> cases hres
    all_goals
      first
        | exact absurd h (handleSupabaseError_status_ne_201 _)
        | (rename_i db2' r' heq
           unfold dbInsert at heq
           split_ifs at heq
           simp only [Except.ok.injEq, Prod.mk.injEq] at heq
           obtain ⟨h3, h4⟩ := heq
           subst h3
           subst h4
           exact ⟨_, rfl, rfl⟩)

theorem dbInsert_dup (env : Env) (db : Db) (v : NewRow)
    (hest : estadoValid v.estado = true) (hwu : wuValid v.windows_update = true)
    (hdup : db.rows.any (fun q => q.equipo_id = v.equipo_id) = true) :
    dbInsert env db v =
      .error { code := some "23505",
               message := "duplicate key value violates unique constraint" } := by
  unfold dbInsert
  rw [if_neg (by simp [hest, hwu]), if_pos (by simp [hdup])]

theorem postComputadoresV1_insert_error (env : Env) (db : Db) (body : Body)
    (e : SupaError) (hv : validBody body = true)
    (he : ∀ imgs, dbInsert env db (newRowOf body imgs) = .error e) :
    postComputadoresV1 env db body =
      (handleSupabaseError e, db,
       match body.imagenes with
       | .arr l => imageLoop (createItemV1 env (body.equipo_id.getD "")) l 0
       | _ => []) := by
  rw [postComputadoresV1_valid env db body hv]
  dsimp only
  rw [he]

/-- C3: once a create has succeeded, a second otherwise-valid create
request with the same equipment identifier is rejected with the 400
response obtained by mapping the vendor duplicate-key code 23505, and the
table state is unchanged by the second request. -/
theorem create_duplicate_equipo_id_conflict (env1 env2 : Env) (db0 : Db)
    (b1 b2 : Body)
    (h1 : (postComputadoresV1 env1 db0 b1).1.status = 201)
    (heq : b2.equipo_id = b1.equipo_id)
    (hv : validBody b2 = true)
    (hest : estadoValid (b2.estado.getD "") = true)
    (hwu : wuValid (b2.windows_update.getD "") = true) :
    (postComputadoresV1 env2 (postComputadoresV1 env1 db0 b1).2.1 b2).1.status = 400
    ∧ (postComputadoresV1 env2 (postComputadoresV1 env1 db0 b1).2.1 b2).1.errorCode
        = some "23505"
    ∧ (postComputadoresV1 env2 (postComputadoresV1 env1 db0 b1).2.1 b2).1.errorMsg
        = some "El ID del equipo ya existe"
    ∧ (postComputadoresV1 env2 (postComputadoresV1 env1 db0 b1).2.1 b2).2.1
        = (postComputadoresV1 env1 db0 b1).2.1 := by
  obtain ⟨r, hrows, rid⟩ := postComputadoresV1_created env1 db0 b1 h1
  have hdup : ∀ imgs : List Attachment,
      dbInsert env2 (postComputadoresV1 env1 db0 b1).2.1 (newRowOf b2 imgs) =
        .error { code := some "23505",
                 message := "duplicate key value violates unique constraint" } := by
    intro imgs
    refine dbInsert_dup env2 _ _ hest hwu ?_
    rw [List.any_eq_true]
    refine ⟨r, ?_, ?_⟩
    · rw [hrows]
      exact List.mem_append.mpr (Or.inr (by simp))
    · simp [newRowOf, rid, heq]
  rw [postComputadoresV1_insert_error env2 _ b2 _ hv hdup]
  refine ⟨?_, ?_, ?_, ?_⟩ <;> simp [handleSupabaseError, jsOr]

/-- Witness for C3 at a concrete pair of identical create requests. -/
theorem create_duplicate_equipo_id_conflict_witness :
    (postComputadoresV1 envW
        (postComputadoresV1 envW { rows := [], nextId := 1 } bodyW).2.1 bodyW).1.status
      = 400
    ∧ (postComputadoresV1 envW
        (postComputadoresV1 envW { rows := [], nextId := 1 } bodyW).2.1 bodyW).1.errorCode
      = some "23505" := by
  obtain ⟨ha, hb, -, -⟩ :=
    create_duplicate_equipo_id_conflict envW envW { rows := [], nextId := 1 }
      bodyW bodyW (by decide) rfl (by decide) (by decide) (by decide)
  exact ⟨ha, hb⟩

theorem dbUpdate_nomatch (db : Db) (id : Nat) (f : Record → Record)
    (hwf : dbWf db = true) (hnone : ∀ q ∈ db.rows, q.id ≠ id) :
    dbUpdate db id f = .ok (db, []) := by
  have hmap : (db.rows.map fun r => if r.id = id then f r else r) = db.rows := by
    have haux : ∀ l : List Record, (∀ q ∈ l, q.id ≠ id) →
        (l.map fun r => if r.id = id then f r else r) = l := by
      intro l
      induction l with
      | nil => intro _; rfl
      | cons a t ih =>
        intro hl
        have ha : ¬ a.id = id := hl a (by simp)
        simp only [List.map_cons, if_neg ha, List.cons.injEq]
        exact ⟨trivial, ih fun q hq => hl q (by simp [hq])⟩
    exact haux db.rows hnone
  have hfilter : db.rows.filter (fun r => r.id = id) = [] := by
    rw [List.filter_eq_nil_iff]
    intro a ha
    simp [hnone a ha]
  have hwf2 : db.rows.all rowValid = true ∧ equipoIdsNodup db.rows = true := by
    simpa [dbWf, Bool.and_eq_true] using hwf
  obtain ⟨hall, hnodup⟩ := hwf2
  unfold dbUpdate
  dsimp only
  rw [hmap, hfilter]
  rw [if_neg (by simp [hall]), if_neg (by simp [hnodup])]
  rfl

theorem dbUpdate_ok_rows {db : Db} {id : Nat} {f : Record → Record}
    {db2 : Db} {matched : List Record}
    (h : dbUpdate db id f = .ok (db2, matched)) :
    db2.rows = db.rows.map fun r => if r.id = id then f r else r := by
  unfold dbUpdate at h
  dsimp only at h
  split_ifs at h
  simp only [Except.ok.injEq, Prod.mk.injEq] at h
  rw [← h.1]

theorem putComputadoresV1_nomatch (env : Env) (db : Db) (id : Nat) (body : Body)
    (hwf : dbWf db = true) (hnone : ∀ q ∈ db.rows, q.id ≠ id) :
    putComputadoresV1 env db id body =
      ({ status := 404, errorMsg := some "Registro no encontrado" }, db) := by
  unfold putComputadoresV1
  dsimp only
  rw [dbUpdate_nomatch db id _ hwf hnone]
  rfl

theorem putComputadoresHybrid_nomatch (env : Env) (db : Db) (id : Nat) (body : Body)
    (hwf : dbWf db = true) (hnone : ∀ q ∈ db.rows, q.id ≠ id) :
    putComputadoresHybrid env db id body =
      ({ status := 404, errorMsg := some "Registro no encontrado" }, db) := by
  unfold putComputadoresHybrid
  dsimp only
  rw [dbUpdate_nomatch db id _ hwf hnone]
  rfl

theorem putComputadoresV1_ok (env : Env) (db : Db) (id : Nat) (body : Body)
    (h : (putComputadoresV1 env db id body).1.status = 200) :
    (putComputadoresV1 env db id body).2.rows =
      (db.rows.map fun r => if r.id = id then
        applyUpdate body (imagenesFinalesV1 env body) env.nowISO r else r)
    ∧ (putComputadoresV1 env db id body).1.imagenes_guardadas =
        some (imagenesFinalesV1 env body).length := by
  rcases hres : putComputadoresV1 env db id body with ⟨resp, db2⟩
  rw [hres] at h
  simp only at h ⊢
  unfold putComputadoresV1 at hres
  dsimp only at hres
  split at hres
  · rename_i e hupd
    cases hres
    exact absurd h (handleSupabaseError_status_ne_200 e)
  · rename_i db2' matched hupd
    split at hres
    · cases hres
      simp at h
    · cases hres
      exact ⟨dbUpdate_ok_rows hupd, rfl⟩

theorem putComputadoresHybrid_ok (env : Env) (db : Db) (id : Nat) (body : Body)
    (h : (putComputadoresHybrid env db id body).1.status = 200) :
    (putComputadoresHybrid env db id body).2.rows =
      (db.rows.map fun r => if r.id = id then
        applyUpdate body (imagenesFinalesHybrid env body) env.nowISO r else r)
    ∧ (putComputadoresHybrid env db id body).1.imagenes_guardadas =
        some (imagenesFinalesHybrid env body).length := by
  rcases hres : putComputadoresHybrid env db id body with ⟨resp, db2⟩
  rw [hres] at h
  simp only at h ⊢
  unfold putComputadoresHybrid at hres
  dsimp only at hres
  split at hres
  · rename_i e hupd
    cases hres
    exact absurd h (handleSupabaseError_status_ne_200 e)
  · rename_i db2' matched hupd
    split at hres
    · cases hres
      simp at h
    · cases hres
      exact ⟨dbUpdate_ok_rows hupd, rfl⟩

theorem updated_row_fields (body : Body) (imgs : List Attachment)
    (nowISO : String) (rows : List Record) (id : Nat) (q : Record)
    (hq : q ∈ rows.map fun r => if r.id = id then applyUpdate body imgs nowISO r else r)
    (hid : q.id = id) :
    ∃ r ∈ rows, q = applyUpdate body imgs nowISO r := by
  obtain ⟨r, hr, hqe⟩ := List.mem_map.mp hq
  by_cases hrid : r.id = id
  · rw [if_pos hrid] at hqe
    exact ⟨r, hr, hqe.symm⟩
  · rw [if_neg hrid] at hqe
    rw [← hqe] at hid
    exact absurd hid hrid

/-- C4: an update replaces every mutable column present in the body,
always replaces the attachment list, and stamps `fecha_actualizacion` with
the request clock; on an identifier matching no row it responds 404 and
leaves the table unchanged — in both server variants. -/
theorem update_replaces_fields_or_404 (env : Env) (db : Db) (id : Nat)
    (body : Body) :
    (dbWf db = true → (∀ q ∈ db.rows, q.id ≠ id) →
       (putComputadoresV1 env db id body).1.status = 404
       ∧ (putComputadoresV1 env db id body).2 = db
       ∧ (putComputadoresHybrid env db id body).1.status = 404
       ∧ (putComputadoresHybrid env db id body).2 = db)
    ∧ (∀ e sn pm la lo da um rp cg es wu ob pd rv,
       body.equipo_id = some e → body.serial_number = some sn →
       body.placa_ml = some pm → body.latitud = some la →
       body.longitud = some lo → body.direccion_automatica = some da →
       body.ubicacion_manual = some um → body.responsable = some rp →
       body.cargo = some cg → body.estado = some es →
       body.windows_update = some wu → body.observaciones = some ob →
       body.problemas_detectados = some pd → body.revisor = some rv →
       ((putComputadoresV1 env db id body).1.status = 200 →
         ∀ q ∈ (putComputadoresV1 env db id body).2.rows, q.id = id →
           q.equipo_id = e ∧ q.serial_number = sn ∧ q.placa_ml = some pm
           ∧ q.latitud = some la ∧ q.longitud = some lo
           ∧ q.direccion_automatica = some da ∧ q.ubicacion_manual = some um
           ∧ q.responsable = rp ∧ q.cargo = cg ∧ q.estado = es
           ∧ q.windows_update = wu
           ∧ q.imagenes = imagenesFinalesV1 env body
           ∧ q.observaciones = some ob ∧ q.problemas_detectados = some pd
           ∧ q.revisor = some rv ∧ q.fecha_actualizacion = env.nowISO)
       ∧ ((putComputadoresHybrid env db id body).1.status = 200 →
         ∀ q ∈ (putComputadoresHybrid env db id body).2.rows, q.id = id →
           q.imagenes = imagenesFinalesHybrid env body
           ∧ q.estado = es ∧ q.fecha_actualizacion = env.nowISO)) := by
  constructor
  · intro hwf hnone
    rw [putComputadoresV1_nomatch env db id body hwf hnone,
      putComputadoresHybrid_nomatch env db id body hwf hnone]
    exact ⟨rfl, rfl, rfl, rfl⟩
  · intro e sn pm la lo da um rp cg es wu ob pd rv
      he hsn hpm hla hlo hda hum hrp hcg hes hwu hob hpd hrv
    constructor
    · intro hst q hq hid
      rw [(putComputadoresV1_ok env db id body hst).1] at hq
      obtain ⟨r, -, rfl⟩ := updated_row_fields body _ env.nowISO db.rows id q hq hid
      simp [applyUpdate, updField, he, hsn, hpm, hla, hlo, hda, hum, hrp,
        hcg, hes, hwu, hob, hpd, hrv]
    · intro hst q hq hid
      rw [(putComputadoresHybrid_ok env db id body hst).1] at hq
      obtain ⟨r, -, rfl⟩ := updated_row_fields body _ env.nowISO db.rows id q hq hid
      simp [applyUpdate, updField, hes]

/-- Witness for C4: a no-match update on the concrete table responds 404
and leaves it unchanged, and a matching full-body update rewrites the
row's status and timestamp. -/
theorem update_replaces_fields_or_404_witness :
    ((putComputadoresV1 envW dbW 99 bodyFull).1.status = 404
      ∧ (putComputadoresV1 envW dbW 99 bodyFull).2 = dbW)
    ∧ ((applyUpdate bodyFull (imagenesFinalesV1 envW bodyFull) envW.nowISO
          recW).estado = "operativo"
      ∧ (applyUpdate bodyFull (imagenesFinalesV1 envW bodyFull) envW.nowISO
          recW).fecha_actualizacion = envW.nowISO) := by
  constructor
  · obtain ⟨h1, h2, -, -⟩ :=
      (update_replaces_fields_or_404 envW dbW 99 bodyFull).1 (by decide) (by decide)
    exact ⟨h1, h2⟩
  · obtain ⟨hv1, -⟩ :=
      (update_replaces_fields_or_404 envW dbW 1 bodyFull).2 "PC1" "S2" "PL" 4 (-74)
        "Calle 1" "Sede" "Beto" "Dev" "operativo" "no" "obs" "ninguno" "Caro"
        rfl rfl rfl rfl rfl rfl rfl rfl rfl rfl rfl rfl rfl rfl
    have hst : (putComputadoresV1 envW dbW 1 bodyFull).1.status = 200 := by decide
    have hmem : applyUpdate bodyFull (imagenesFinalesV1 envW bodyFull) envW.nowISO recW
        ∈ (putComputadoresV1 envW dbW 1 bodyFull).2.rows := by decide
    obtain ⟨-, -, -, -, -, -, -, -, -, hq10, -, -, -, -, -, hq16⟩ :=
      hv1 hst _ hmem rfl
    exact ⟨hq10, hq16⟩

/-- C10: when the update body omits `imagenes` or supplies a non-array
value, a successful update replaces the stored attachment list of the
addressed record with the empty array and reports zero saved images — in
both server variants. -/
theorem update_missing_imagenes_clears_attachments (env : Env) (db : Db)
    (id : Nat) (body : Body)
    (him : body.imagenes = .missing ∨ body.imagenes = .notArray) :
    ((putComputadoresV1 env db id body).1.status = 200 →
      (∀ q ∈ (putComputadoresV1 env db id body).2.rows, q.id = id → q.imagenes = [])
      ∧ (putComputadoresV1 env db id body).1.imagenes_guardadas = some 0)
    ∧ ((putComputadoresHybrid env db id body).1.status = 200 →
      (∀ q ∈ (putComputadoresHybrid env db id body).2.rows, q.id = id → q.imagenes = [])
      ∧ (putComputadoresHybrid env db id body).1.imagenes_guardadas = some 0) := by
  have hv1 : imagenesFinalesV1 env body = [] := by
    rcases him with h | h <;> simp [imagenesFinalesV1, h]
  have hv2 : imagenesFinalesHybrid env body = [] := by
    rcases him with h | h <;> simp [imagenesFinalesHybrid, h]
  constructor
  · intro hst
    obtain ⟨hrows, hcount⟩ := putComputadoresV1_ok env db id body hst
    refine ⟨?_, by rw [hcount, hv1]; rfl⟩
    intro q hq hid
    rw [hrows] at hq
    obtain ⟨r, -, rfl⟩ := updated_row_fields body _ env.nowISO db.rows id q hq hid
    simp [applyUpdate, hv1]
  · intro hst
    obtain ⟨hrows, hcount⟩ := putComputadoresHybrid_ok env db id body hst
    refine ⟨?_, by rw [hcount, hv2]; rfl⟩
    intro q hq hid
    rw [hrows] at hq
    obtain ⟨r, -, rfl⟩ := updated_row_fields body _ env.nowISO db.rows id q hq hid
    simp [applyUpdate, hv2]

/-- Witness for C10: a concrete update whose body has no `imagenes` field
reports zero saved images on success. -/
theorem update_missing_imagenes_clears_attachments_witness :
    (putComputadoresV1 envW dbW 1 bodyW).1.imagenes_guardadas = some 0 :=
  ((update_missing_imagenes_clears_attachments envW dbW 1 bodyW
    (Or.inl rfl)).1 (by decide)).2

theorem mem_insertDesc {a r : Record} {l : List Record} :
    a ∈ insertDesc r l ↔ a = r ∨ a ∈ l := by
  induction l with
  | nil => simp [insertDesc]
  | cons q qs ih =>
    by_cases h : r.fecha_revision ≤ q.fecha_revision
    · simp only [insertDesc, if_pos h, List.mem_cons, ih]
      tauto
    · simp only [insertDesc, if_neg h, List.mem_cons]

theorem mem_sortByRevisionDesc {a : Record} {l : List Record} :
    a ∈ sortByRevisionDesc l ↔ a ∈ l := by
  induction l with
  | nil => simp [sortByRevisionDesc]
  | cons r rs ih => simp [sortByRevisionDesc, mem_insertDesc, ih]

theorem pairwise_insertDesc {r : Record} {l : List Record}
    (h : l.Pairwise fun a b => b.fecha_revision ≤ a.fecha_revision) :
    (insertDesc r l).Pairwise fun a b => b.fecha_revision ≤ a.fecha_revision := by
  induction l with
  | nil => simp [insertDesc]
  | cons q qs ih =>
    rcases List.pairwise_cons.mp h with ⟨hq, hqs⟩
    by_cases hle : r.fecha_revision ≤ q.fecha_revision
    · rw [insertDesc, if_pos hle]
      refine List.pairwise_cons.mpr ⟨?_, ih hqs⟩
      intro b hb
      rcases mem_insertDesc.mp hb with rfl | hbm
      · exact hle
      · exact hq b hbm
    · rw [insertDesc, if_neg hle]
      refine List.pairwise_cons.mpr ⟨?_, h⟩
      intro b hb
      rcases List.mem_cons.mp hb with rfl | hbm
      · omega
      · have := hq b hbm
        omega

theorem sorted_sortByRevisionDesc (l : List Record) :
    (sortByRevisionDesc l).Pairwise fun a b => b.fecha_revision ≤ a.fecha_revision := by
  induction l with
  | nil => simp [sortByRevisionDesc]
  | cons r rs ih => exact pairwise_insertDesc ih

theorem listFilter_spec {p : ListParams} {r : Record}
    (hf : listFilter p r = true) :
    (truthy p.estado = true → r.estado = p.estado.getD "")
    ∧ (truthy p.responsable = true →
        ciContains r.responsable (p.responsable.getD "") = true)
    ∧ (truthy p.equipo_id = true →
        ciContains r.equipo_id (p.equipo_id.getD "") = true)
    ∧ (truthy p.serial_number = true →
        ciContains r.serial_number (p.serial_number.getD "") = true)
    ∧ (truthy p.revisor = true →
        ∃ s, r.revisor = some s ∧ ciContains s (p.revisor.getD "") = true) := by
  unfold listFilter at hf
  rw [Bool.and_eq_true, Bool.and_eq_true, Bool.and_eq_true, Bool.and_eq_true] at hf
  obtain ⟨⟨⟨⟨h1, h2⟩, h3⟩, h4⟩, h5⟩ := hf
  refine ⟨?_, ?_, ?_, ?_, ?_⟩
  · intro ht
    rw [if_pos ht] at h1
    simpa using h1
  · intro ht
    rw [if_pos ht] at h2
    exact h2
  · intro ht
    rw [if_pos ht] at h3
    exact h3
  · intro ht
    rw [if_pos ht] at h4
    exact h4
  · intro ht
    rw [if_pos ht] at h5
    cases hrev : r.revisor with
    | none => rw [hrev] at h5; exact absurd h5 (by simp)
    | some s => rw [hrev] at h5; exact ⟨s, rfl, h5⟩

/-- C7: the list endpoint responds 200 with exactly the rows that pass the
conditional status/substring filters, ordered by review timestamp
descending; each returned row satisfies every filter that was supplied,
and in particular `estado=mantenimiento` yields only rows in that state. -/
theorem list_filters_and_order (db : Db) (p : ListParams) :
    (getComputadoresV1 db p).status = 200
    ∧ ∃ l, (getComputadoresV1 db p).records = some l
      ∧ (∀ r, r ∈ l ↔ r ∈ db.rows ∧ listFilter p r = true)
      ∧ l.Pairwise (fun a b => b.fecha_revision ≤ a.fecha_revision)
      ∧ (∀ r ∈ l,
          (truthy p.estado = true → r.estado = p.estado.getD "")
          ∧ (truthy p.responsable = true →
              ciContains r.responsable (p.responsable.getD "") = true)
          ∧ (truthy p.equipo_id = true →
              ciContains r.equipo_id (p.equipo_id.getD "") = true)
          ∧ (truthy p.serial_number = true →
              ciContains r.serial_number (p.serial_number.getD "") = true)
          ∧ (truthy p.revisor = true →
              ∃ s, r.revisor = some s ∧ ciContains s (p.revisor.getD "") = true))
      ∧ (p.estado = some "mantenimiento" → ∀ r ∈ l, r.estado = "mantenimiento") := by
  refine ⟨rfl, sortByRevisionDesc (db.rows.filter (listFilter p)), rfl, ?_, ?_, ?_, ?_⟩
  · intro r
    rw [mem_sortByRevisionDesc, List.mem_filter]
  · exact sorted_sortByRevisionDesc _
  · intro r hr
    have hf := (List.mem_filter.mp (mem_sortByRevisionDesc.mp hr)).2
    exact listFilter_spec hf
  · intro hp r hr
    have hf := (List.mem_filter.mp (mem_sortByRevisionDesc.mp hr)).2
    have := (listFilter_spec hf).1
    rw [hp] at this
    simpa using this (by simp [truthy])

/-- Witness for C7: the concrete two-row table filtered on
`estado=mantenimiento` returns only rows in that state. -/
theorem list_filters_and_order_witness :
    ∃ l, (getComputadoresV1 dbW2 { estado := some "mantenimiento" }).records = some l
      ∧ ∀ r ∈ l, r.estado = "mantenimiento" := by
  obtain ⟨-, l, hl, -, -, -, hm⟩ :=
    list_filters_and_order dbW2 { estado := some "mantenimiento" }
  exact ⟨l, hl, hm rfl⟩

theorem foldl_add_imagenes (rows : List Record) (n : Nat) :
    rows.foldl (fun sum c => sum + c.imagenes.length) n =
      n + (rows.map fun c => c.imagenes.length).sum := by
  induction rows generalizing n with
  | nil => simp
  | cons a t ih =>
    simp only [List.foldl_cons, List.map_cons, List.sum_cons, ih (n + a.imagenes.length)]
    omega

/-- C6 (counterexample): a record whose latitude is present but zero and
whose detected-problems text is a single blank is counted by the claim's
presence/non-emptiness reading but not by the handler, whose JS truthiness
test treats the number 0 as absent and whose `.trim()` discards
blank-only text. -/
theorem estadisticas_presence_counters_cex :
    (estadisticas envW [recCex]).con_ubicacion = 0
    ∧ specConUbicacion [recCex] = 1
    ∧ (estadisticas envW [recCex]).con_problemas = 0
    ∧ specConProblemas [recCex] = 1 := by
  refine ⟨rfl, rfl, ?_, rfl⟩
  decide

/-- C6 (amended): the statistics handler returns the row total, counts by
status and compliance flag, the count of rows whose review timestamp
renders to the current local date string, the count of rows whose
detected-problems text is truthy and non-blank after trimming, the count
of rows whose latitude and longitude are both present and nonzero, the
count of rows with at least one attachment, and the total attachment
count; on an empty row set every counter is zero. -/
theorem estadisticas_counters (env : Env) (rows : List Record) :
    (estadisticas env rows).total = rows.length
    ∧ (estadisticas env rows).operativos =
        rows.countP (fun c => decide (c.estado = "operativo"))
    ∧ (estadisticas env rows).mantenimiento =
        rows.countP (fun c => decide (c.estado = "mantenimiento"))
    ∧ (estadisticas env rows).danados =
        rows.countP (fun c => decide (c.estado = "dañado"))
    ∧ (estadisticas env rows).windows_si =
        rows.countP (fun c => decide (c.windows_update = "si"))
    ∧ (estadisticas env rows).windows_no =
        rows.countP (fun c => decide (c.windows_update = "no"))
    ∧ (estadisticas env rows).revisiones_hoy =
        rows.countP (fun c => decide (env.toDateString c.fecha_revision = env.todayString))
    ∧ (estadisticas env rows).con_problemas =
        rows.countP (fun c => truthy c.problemas_detectados
          && decide (jsTrim (c.problemas_detectados.getD "") ≠ ""))
    ∧ (estadisticas env rows).con_ubicacion =
        rows.countP (fun c => truthyNum c.latitud && truthyNum c.longitud)
    ∧ (estadisticas env rows).con_imagenes =
        rows.countP (fun c => decide (0 < c.imagenes.length))
    ∧ (estadisticas env rows).total_imagenes =
        (rows.map fun c => c.imagenes.length).sum
    ∧ (estadisticas env rows).totalEquipos = rows.length
    ∧ (estadisticas env rows).windowsActualizados =
        rows.countP (fun c => decide (c.windows_update = "si"))
    ∧ estadisticas env [] =
        { total := 0, operativos := 0, mantenimiento := 0, danados := 0,
          windows_si := 0, windows_no := 0, revisiones_hoy := 0,
          con_problemas := 0, con_ubicacion := 0, con_imagenes := 0,
          total_imagenes := 0, totalEquipos := 0, windowsActualizados := 0 } := by
  simp [estadisticas, List.countP_eq_length_filter, foldl_add_imagenes]

/-- C5: an attachment descriptor with no inline payload and an existing
reference is passed through according to mode: the hosted-storage update
includes it unconditionally; the hybrid update includes a URL-shaped
reference unconditionally and any other reference exactly when the local
file exists; and the hybrid list path applies the same existence check to
every stored attachment of every returned record. -/
theorem existing_reference_passthrough (env : Env) (oeq : Option String)
    (img : Imagen) (k : Nat) (a : Attachment) (db : Db) (p : ListParams) :
    (img.base64 = none → truthy img.filename = true →
      updateItemV1 env oeq img k =
        some { title := jsOr img.title ("Imagen " ++ toString k),
               filename := img.filename.getD "", url := img.url,
               fecha_subida := jsOr img.fecha_subida env.nowISO })
    ∧ (img.base64 = none → truthy img.filename = true →
        strStartsWith (img.filename.getD "") "http" = true →
        updateItemHybrid env oeq img k =
          some { title := jsOr img.title ("Imagen " ++ toString k),
                 filename := img.filename.getD "",
                 url := some (img.filename.getD ""),
                 size := some (img.size.getD 0),
                 fecha_subida := jsOr img.fecha_subida env.nowISO })
    ∧ (img.base64 = none → truthy img.filename = true →
        strStartsWith (img.filename.getD "") "http" = false →
        updateItemHybrid env oeq img k =
          (if env.fileExists (img.filename.getD "") then
            some { title := jsOr img.title ("Imagen " ++ toString k),
                   filename := img.filename.getD "", url := img.url,
                   size := some (img.size.getD 0),
                   fecha_subida := jsOr img.fecha_subida env.nowISO }
          else none))
    ∧ (¬ (truthy a.url = true ∧ strContains (a.url.getD "") "supabase.co" = true) →
        a.filename ≠ "" → strStartsWith a.filename "http" = false →
        getImagenHybrid env a =
          (if env.fileExists a.filename then some a else none))
    ∧ (∀ l, (getComputadoresHybrid env db p).records = some l →
        ∀ r' ∈ l, ∃ r ∈ db.rows, listFilter p r = true
          ∧ r' = { r with imagenes := r.imagenes.filterMap (getImagenHybrid env) }) := by
  refine ⟨?_, ?_, ?_, ?_, ?_⟩
  · intro hb ht
    have h0 : truthy img.base64 = false := by rw [hb]; rfl
    unfold updateItemV1
    rw [if_neg (by simp [h0]), if_pos ht]
  · intro hb ht hs
    have h0 : truthy img.base64 = false := by rw [hb]; rfl
    unfold updateItemHybrid
    rw [if_neg (by simp [h0]), if_pos ht, if_pos hs]
  · intro hb ht hs
    have h0 : truthy img.base64 = false := by rw [hb]; rfl
    unfold updateItemHybrid
    rw [if_neg (by simp [h0]), if_pos ht, if_neg (by simp [hs])]
  · intro hurl hne hhttp
    unfold getImagenHybrid
    rw [if_neg hurl, if_pos ⟨hne, by simp [hhttp]⟩]
  · intro l hl r' hr'
    simp only [getComputadoresHybrid, Option.some.injEq] at hl
    subst hl
    obtain ⟨r, hrmem, rfl⟩ := List.mem_map.mp hr'
    have hf := List.mem_filter.mp (mem_sortByRevisionDesc.mp hrmem)
    exact ⟨r, hf.1, hf.2, rfl⟩

/-- Witness for C5: the concrete reference-only item is kept unchanged by
the hosted update, kept by the hybrid update because the file exists, and
a reference to a missing file is dropped by the hybrid update. -/
theorem existing_reference_passthrough_witness :
    updateItemV1 envW (some "PC1") imgRef 1 =
      some { title := "vieja", filename := "ex/1.png", url := none,
             fecha_subida := envW.nowISO }
    ∧ updateItemHybrid envW (some "PC1") imgRef 1 =
      some { title := "vieja", filename := "ex/1.png", url := none,
             size := some 0, fecha_subida := envW.nowISO }
    ∧ updateItemHybrid envW (some "PC1") imgRefGone 1 = none := by
  refine ⟨?_, ?_, ?_⟩
  · exact (existing_reference_passthrough envW (some "PC1") imgRef 1 attOld
      { rows := [], nextId := 1 } {}).1 rfl (by decide)
  · have h := (existing_reference_passthrough envW (some "PC1") imgRef 1 attOld
      { rows := [], nextId := 1 } {}).2.2.1 rfl (by decide) (by decide)
    rw [h]
    decide
  · have h := (existing_reference_passthrough envW (some "PC1") imgRefGone 1 attOld
      { rows := [], nextId := 1 } {}).2.2.1 rfl (by decide) (by decide)
    rw [h]
    decide

/-- C8 (counterexample): a new inline image submitted on update is stored
under the key `PC1-update/5-1.png`, not under the claimed
`<equipment-id>/<epoch-millis>-<index>.<subtype>` key `PC1/5-1.png` of the
record whose equipment identifier is `PC1`. -/
theorem update_upload_key_cex :
    imagenesFinalesV1 envW { bodyW with imagenes := .arr [imgGood] } =
      [{ title := "Imagen 1", filename := "PC1-update/5-1.png",
         url := some "https://sb/PC1-update/5-1.png",
         fecha_subida := "2026-01-01T00:00:00.000Z" }]
    ∧ ("PC1-update/5-1.png" : String)
        ≠ "PC1" ++ "/" ++ toString envW.now ++ "-" ++ toString 1 ++ ".png" := by
  refine ⟨?_, by decide⟩
  decide

/-- C8 (amended): a newly persisted attachment is keyed by
`<uploadid>/<epoch-millis>-<index>.<subtype>` in hosted storage and named
`<epoch-millis>-<index>.<subtype>` inside the directory `<uploadid>`
sanitized to alphanumerics on local disk, where `<uploadid>` is the
record's equipment identifier on the create path and the equipment
identifier with `-update` appended on the update path. -/
theorem attachment_naming_rule (env : Env) (eqid : String) (oeq : Option String)
    (img : Imagen) (k : Nat) (s sub pay : String) :
    (img.base64 = some s → matchDataUriImage s = some (sub, pay) →
      env.uploadOk = true →
      ∃ a, createItemV1 env eqid img k = some a
        ∧ a.filename = eqid ++ "/" ++ toString env.now ++ "-"
            ++ toString k ++ "." ++ sub)
    ∧ (img.base64 = some s → matchDataUriImage s = some (sub, pay) →
      ∃ a, createItemHybrid env eqid img k = some a
        ∧ a.filename = safeEquipoId eqid ++ "/"
            ++ (toString env.now ++ "-" ++ toString k ++ "." ++ sub))
    ∧ (img.base64 = some s → matchDataUriImage s = some (sub, pay) →
      env.uploadOk = true → strStartsWith s "data:image" = true →
      ∃ a, updateItemV1 env oeq img k = some a
        ∧ a.filename = jsStr oeq ++ "-update" ++ "/" ++ toString env.now ++ "-"
            ++ toString k ++ "." ++ sub)
    ∧ (img.base64 = some s → matchDataUriImage s = some (sub, pay) →
      strStartsWith s "data:image" = true →
      ∃ a, updateItemHybrid env oeq img k = some a
        ∧ a.filename = safeEquipoId (jsStr oeq ++ "-update") ++ "/"
            ++ (toString env.now ++ "-" ++ toString k ++ "." ++ sub)) := by
  refine ⟨?_, ?_, ?_, ?_⟩
  · intro hb hm hup
    obtain ⟨hne, -⟩ := matchDataUriImage_guards hm
    have hu := uploadImageToSupabase_matched env eqid k (s := s) hm hup
    simp only [createItemV1, hb, truthy, hne, ne_eq, not_false_iff,
      decide_eq_true_eq, if_true, hu]
    exact ⟨_, rfl, rfl⟩
  · intro hb hm
    obtain ⟨hne, -⟩ := matchDataUriImage_guards hm
    have hu := saveImageLocally_matched env eqid k (s := s) hm
    simp only [createItemHybrid, hb, truthy, hne, ne_eq, not_false_iff,
      decide_eq_true_eq, if_true, hu]
    exact ⟨_, rfl, rfl⟩
  · intro hb hm hup hstart
    have ht : truthy img.base64 = true := by
      obtain ⟨hne, -⟩ := matchDataUriImage_guards hm
      simp [hb, truthy, hne]
    have hu := uploadImageToSupabase_matched env (jsStr oeq ++ "-update") k
      (s := s) hm hup
    unfold updateItemV1
    rw [if_pos ⟨ht, by simp [hb, hstart]⟩, hb, hu]
    exact ⟨_, rfl, rfl⟩
  · intro hb hm hstart
    have ht : truthy img.base64 = true := by
      obtain ⟨hne, -⟩ := matchDataUriImage_guards hm
      simp [hb, truthy, hne]
    have hu := saveImageLocally_matched env (jsStr oeq ++ "-update") k
      (s := s) hm
    unfold updateItemHybrid
    rw [if_pos ⟨ht, by simp [hb, hstart]⟩, hb, hu]
    exact ⟨_, rfl, rfl⟩

/-- Witness for the amended C8 at concrete create and update items. -/
theorem attachment_naming_rule_witness :
    (∃ a, createItemV1 envW "PC1" imgGood 1 = some a
      ∧ a.filename = "PC1" ++ "/" ++ toString envW.now ++ "-"
          ++ toString 1 ++ "." ++ "png")
    ∧ (∃ a, updateItemHybrid envW (some "PC-1") imgGood 2 = some a
      ∧ a.filename = safeEquipoId (jsStr (some "PC-1") ++ "-update") ++ "/"
          ++ (toString envW.now ++ "-" ++ toString 2 ++ "." ++ "png")) :=
  ⟨(attachment_naming_rule envW "PC1" (some "PC-1") imgGood 1
      "data:image/png;base64,AAAA" "png" "AAAA").1 rfl (by decide) rfl,
   (attachment_naming_rule envW "PC1" (some "PC-1") imgGood 2
      "data:image/png;base64,AAAA" "png" "AAAA").2.2.2 rfl (by decide) (by decide)⟩

/-- C9: in hosted-storage mode the file route treats the requested path as
an object-storage key: it redirects to the derived public URL and responds
404 exactly when no public URL can be derived (a falsy `publicUrl`). -/
theorem uploads_proxy_redirect_or_404 (env : Env) (fn : String) :
    (env.publicUrl fn ≠ "" → uploadsProxyV1 env fn = .redirect (env.publicUrl fn))
    ∧ (env.publicUrl fn = "" → uploadsProxyV1 env fn = .notFound) := by
  constructor <;> intro h <;> simp [uploadsProxyV1, h]

/-- Witness for C9: a derivable key redirects, an underivable one is 404. -/
theorem uploads_proxy_redirect_or_404_witness :
    uploadsProxyV1 envW "PC1/5-1.png" = .redirect (envW.publicUrl "PC1/5-1.png")
    ∧ uploadsProxyV1 envWNoUrl "PC1/5-1.png" = .notFound :=
  ⟨(uploads_proxy_redirect_or_404 envW "PC1/5-1.png").1 (by decide),
   (uploads_proxy_redirect_or_404 envWNoUrl "PC1/5-1.png").2 rfl⟩

end Servidor
